import Mathlib

/-!
Verification of the social-warner ETL pipeline.

This file gives a shallow embedding of the repository's Python sources
(`data_transform.py`, `data_extract.py`, `data_load.py`) and proves
properties of the embedded functions.

A pandas `DataFrame` is modelled as an ordered list of named, dtype-tagged
columns of cells; pandas operations used by the code (`to_numeric` /
`to_datetime` with `errors="coerce"`, `fillna`, `astype`, the `.dt.strftime`
accessor, column assignment, `concat(axis=1)`, `drop`, `to_dict('records')`)
are modelled by their documented semantics.  Timestamps are nanoseconds since
the Unix epoch; the Gregorian day/date conversions use the standard
civil-from-days / days-from-civil algorithms.  Fallible Python operations
(`.dt` on a non-datetime column, API and warehouse calls) return `Except` /
`Option`; `try`/`except` blocks become matches on those results.
-/

namespace SocialWarner

/-- Column dtypes tracked by the embedding of a pandas DataFrame. -/
inductive Dtype where
  | object
  | int64
  | float64
  | datetime64
  | string
deriving DecidableEq

/-- Cell values: missing data (NaN/NaT/None/NA), integers, floats (modelled
as rationals), strings, timestamps (nanoseconds since the Unix epoch), and
nested python lists and string-to-string dicts. -/
inductive Value where
  | na
  | int (n : Int)
  | float (q : Rat)
  | str (s : String)
  | timestamp (ns : Int)
  | list (items : List Value)
  | dict (entries : List (String × String))

/-- Whether a cell holds a python list (`isinstance(x, list)`). -/
def Value.isList : Value → Bool
  | .list _ => true
  | _ => false

/-- One DataFrame column: a name, a dtype and the cells top to bottom. -/
structure Col where
  name : String
  dtype : Dtype
  cells : List Value

/-- A pandas DataFrame: an ordered list of columns. -/
structure DataFrame where
  cols : List Col

/-- A flat output record, as produced by `to_dict(orient='records')`. -/
abbrev Record := List (String × Value)

/-- Whitespace characters stripped by python's `str.strip` and matched by
the regex class used in `data_extract.py`. -/
def isPySpace (c : Char) : Bool :=
  (c = ' ') || (c = '\t') || (c = '\n') || (c = '\r') || (c = Char.ofNat 11) || (c = Char.ofNat 12)

/-- Python `str.strip()` on a character list. -/
def pyStrip (l : List Char) : List Char :=
  ((l.dropWhile isPySpace).reverse.dropWhile isPySpace).reverse

/-- Python `item.split(":", 1)`: `some (l, r)` when a colon occurs, splitting
at the first one; `none` when the string has no colon. -/
def splitOnceColon : List Char → Option (List Char × List Char)
  | [] => none
  | c :: cs =>
    if c = ':' then some ([], cs)
    else
      match splitOnceColon cs with
      | some (l, r) => some (c :: l, r)
      | none => none

/-- In-place dict-value update: the entry holding `key` gets its value
extended with `"//" ++ value` (`processed_dict[key] += f"//{value}"`). -/
def tagUpd (key value : String) (p : String × String) : String × String :=
  if p.1 == key then (p.1, p.2 ++ "//" ++ value) else p

/-- Insertion into the parser's accumulated dict: a repeated key gets its
value extended in place via `tagUpd`, a new key is appended at the end
(python dict insertion order). -/
def tagInsert (d : List (String × String)) (key value : String) : List (String × String) :=
  if d.any (fun p => p.1 == key) then d.map (tagUpd key value)
  else d ++ [(key, value)]

/-- The loop body of `process_nested_field`: string items are split on the
first colon, non-string items are skipped. -/
def processItems (field_name : String) : List Value → List (String × String) → List (String × String)
  | [], acc => acc
  | item :: rest, acc =>
    match item with
    | Value.str s =>
      (match splitOnceColon s.data with
       | some (l, r) =>
         let key := field_name ++ "." ++ String.mk ((pyStrip l).map (fun c => if c = ' ' then '_' else c))
         let value := String.mk (pyStrip r)
         processItems field_name rest (tagInsert acc key value)
       | none =>
         processItems field_name rest (tagInsert acc (field_name ++ ".untitled") s))
    | _ => processItems field_name rest acc

/-- Embedding of `process_nested_field` from `data_transform.py`: parses a
list of `"key: value"` strings into a flat mapping; non-list or empty input
yields the empty mapping. -/
def process_nested_field (input_list : Value) (field_name : String) : List (String × String) :=
  match input_list with
  | Value.list [] => []
  | Value.list items => processItems field_name items []
  | _ => []

/-- Replacement of one character in a column name (`col.replace('.', '&')`). -/
def sanChar (c : Char) : Char := if c = '.' then '&' else c

/-- Sanitize one column name: every dot becomes an ampersand. -/
def sanitizeName (s : String) : String := String.mk (s.data.map sanChar)

/-- Embedding of `sanitize_column_names` from `data_transform.py`. -/
def sanitize_column_names (df : DataFrame) : DataFrame :=
  DataFrame.mk (df.cols.map (fun c => Col.mk (sanitizeName c.name) c.dtype c.cells))

/-- Value of a digit string (`int(...)` on an all-digit string). -/
def digitsToNat (ds : List Char) : Nat :=
  ds.foldl (fun a c => a * 10 + (c.toNat - 48)) 0

/-- Sign parsing for python numeric literals. -/
def parseSign : List Char → (Bool × List Char)
  | '-' :: cs => (true, cs)
  | '+' :: cs => (false, cs)
  | cs => (false, cs)

/-- Exponent tail of a python float literal: sign then a nonempty digit run
consuming the rest of the string. -/
def parseExpTail (cs : List Char) : Option Int :=
  let (neg, cs1) := parseSign cs
  let ds := cs1.takeWhile Char.isDigit
  let rest := cs1.dropWhile Char.isDigit
  if ds = [] then none
  else if rest = [] then some (if neg then -(digitsToNat ds : Int) else (digitsToNat ds : Int))
  else none

/-- Scale a rational by a power of ten (exponent part of a float literal). -/
def scalePow10 (q : Rat) (e : Int) : Rat :=
  if e < 0 then q / ((10 : Rat) ^ e.natAbs) else q * ((10 : Rat) ^ e.natAbs)

/-- Numeric parsing as performed by `pd.to_numeric` on a string cell:
optional surrounding whitespace and sign, integer and/or fractional digit
runs, optional exponent.  `none` means the string does not parse as a
number (with `errors="coerce"` the cell becomes NaN). -/
def parseNumeric (s : String) : Option Rat :=
  let cs := pyStrip s.data
  let (neg, cs1) := parseSign cs
  let ds := cs1.takeWhile Char.isDigit
  let cs2 := cs1.dropWhile Char.isDigit
  let finish : Rat → Option Rat := fun q => some (if neg then -q else q)
  match cs2 with
  | [] => if ds = [] then none else finish (digitsToNat ds : Rat)
  | '.' :: cs3 =>
    let fs := cs3.takeWhile Char.isDigit
    let cs4 := cs3.dropWhile Char.isDigit
    if ds = [] ∧ fs = [] then none
    else
      let base : Rat := (digitsToNat ds : Rat) + (digitsToNat fs : Rat) / ((10 : Rat) ^ fs.length)
      match cs4 with
      | [] => finish base
      | e :: cs5 =>
        if e = 'e' ∨ e = 'E' then
          match parseExpTail cs5 with
          | some k => finish (scalePow10 base k)
          | none => none
        else none
  | e :: cs3 =>
    if (e = 'e' ∨ e = 'E') ∧ ds ≠ [] then
      match parseExpTail cs3 with
      | some k => finish (scalePow10 (digitsToNat ds : Rat) k)
      | none => none
    else none

/-- Truncation toward zero, as in numpy's float-to-int64 `astype`. -/
def ratTrunc (q : Rat) : Int := q.num / (q.den : Int)

/-- Nanoseconds in one day. -/
def nsPerDay : Int := 86400000000000

/-- Days since 1970-01-01 of a Gregorian civil date (standard
days-from-civil algorithm). -/
def daysFromCivil (y m d : Int) : Int :=
  let y1 := y - (if m ≤ 2 then 1 else 0)
  let era := Int.fdiv y1 400
  let yoe := y1 - era * 400
  let mp := Int.emod (m + 9) 12
  let doy := Int.fdiv (153 * mp + 2) 5 + d - 1
  let doe := yoe * 365 + Int.fdiv yoe 4 - Int.fdiv yoe 100 + doy
  era * 146097 + doe - 719468

/-- Gregorian civil date of a days-since-epoch count (standard
civil-from-days algorithm). -/
def civilFromDays (z0 : Int) : Int × Int × Int :=
  let z := z0 + 719468
  let era := Int.fdiv z 146097
  let doe := Int.emod z 146097
  let yoe := Int.fdiv (doe - Int.fdiv doe 1460 + Int.fdiv doe 36524 - Int.fdiv doe 146096) 365
  let y := yoe + era * 400
  let doy := doe - (365 * yoe + Int.fdiv yoe 4 - Int.fdiv yoe 100)
  let mp := Int.fdiv (5 * doy + 2) 153
  let d := doy - Int.fdiv (153 * mp + 2) 5 + 1
  let m := mp + (if mp < 10 then 3 else -9)
  (y + (if m ≤ 2 then 1 else 0), m, d)

/-- Zero-padded two-digit decimal rendering. -/
def pad2 (n : Nat) : String := if n < 10 then "0" ++ Nat.repr n else Nat.repr n

/-- Zero-padded four-digit decimal rendering (strftime `%Y`). -/
def pad4 (n : Nat) : String :=
  if n < 10 then "000" ++ Nat.repr n
  else if n < 100 then "00" ++ Nat.repr n
  else if n < 1000 then "0" ++ Nat.repr n
  else Nat.repr n

/-- strftime `%Y-%m-%d` of a civil date triple. -/
def formatCivil (ymd : Int × Int × Int) : String :=
  pad4 ymd.1.toNat ++ "-" ++ pad2 ymd.2.1.toNat ++ "-" ++ pad2 ymd.2.2.toNat

/-- strftime `%Y-%m-%d` of a timestamp in epoch nanoseconds. -/
def formatYMDns (ns : Int) : String := formatCivil (civilFromDays (Int.fdiv ns nsPerDay))

/-- strftime `%Y-%m-%dT%H:%M:%S` of a timestamp in epoch nanoseconds. -/
def formatTSns (ns : Int) : String :=
  let secs := (Int.emod ns nsPerDay).toNat / 1000000000
  formatCivil (civilFromDays (Int.fdiv ns nsPerDay)) ++ "T" ++
    pad2 (secs / 3600) ++ ":" ++ pad2 (secs / 60 % 60) ++ ":" ++ pad2 (secs % 60)

/-- Date/datetime string parsing as performed by `pd.to_datetime` on the
formats this pipeline receives: `YYYY-MM-DD`, optionally followed by
`THH:MM:SS` or ` HH:MM:SS`.  `none` means unparseable (with
`errors="coerce"` the cell becomes NaT). -/
def parseDatetimeChars : List Char → Option Int
  | y1 :: y2 :: y3 :: y4 :: '-' :: m1 :: m2 :: '-' :: d1 :: d2 :: rest =>
    if [y1, y2, y3, y4, m1, m2, d1, d2].all Char.isDigit then
      let y : Int := (digitsToNat [y1, y2, y3, y4] : Int)
      let m : Int := (digitsToNat [m1, m2] : Int)
      let d : Int := (digitsToNat [d1, d2] : Int)
      if 1 ≤ m ∧ m ≤ 12 ∧ 1 ≤ d ∧ d ≤ 31 then
        match rest with
        | [] => some (daysFromCivil y m d * nsPerDay)
        | sep :: h1 :: h2 :: ':' :: i1 :: i2 :: ':' :: s1 :: s2 :: [] =>
          if (sep = 'T' ∨ sep = ' ') ∧ [h1, h2, i1, i2, s1, s2].all Char.isDigit then
            let hh := digitsToNat [h1, h2]
            let ii := digitsToNat [i1, i2]
            let ss := digitsToNat [s1, s2]
            if hh < 24 ∧ ii < 60 ∧ ss < 60 then
              some (daysFromCivil y m d * nsPerDay + ((hh * 3600 + ii * 60 + ss : Nat) : Int) * 1000000000)
            else none
          else none
        | _ => none
      else none
    else none
  | _ => none

/-- `pd.to_numeric(..., errors="coerce")` on one cell: `none` is NaN. -/
def toNumeric? : Value → Option Rat
  | Value.int n => some (n : Rat)
  | Value.float q => some q
  | Value.str s => parseNumeric s
  | Value.timestamp ns => some (ns : Rat)
  | _ => none

/-- `pd.to_datetime(..., errors="coerce")` on one cell: `none` is NaT.
Numeric cells are epoch nanoseconds. -/
def toDatetime? : Value → Option Int
  | Value.timestamp ns => some ns
  | Value.str s => parseDatetimeChars s.data
  | Value.int n => some n
  | Value.float q => some (ratTrunc q)
  | _ => none

/-- Quote character (python `repr` of a string element). -/
def quoteChar : Char := Char.ofNat 39

/-- Python `repr` of a string. -/
def quoteStr (s : String) : String := String.mk (quoteChar :: s.data ++ [quoteChar])

/-- Rendering of a dict entry list inside `str()` of a dict. -/
def stringifyEntries : List (String × String) → String
  | [] => ""
  | [(k, v)] => quoteStr k ++ ": " ++ quoteStr v
  | (k, v) :: rest => quoteStr k ++ ": " ++ quoteStr v ++ ", " ++ stringifyEntries rest

/-- Rendering of a rational as a float literal. -/
def ratRepr (q : Rat) : String :=
  if q.den = 1 then toString q.num ++ ".0" else toString q

mutual

/-- Python `str()` of a cell, as applied by `astype("string")` to cells that
are not strings or NA. -/
def stringifyValue : Value → String
  | Value.na => "None"
  | Value.int n => toString n
  | Value.float q => ratRepr q
  | Value.str s => s
  | Value.timestamp ns => formatTSns ns
  | Value.list items => "[" ++ stringifyElems items ++ "]"
  | Value.dict entries => "\x7b" ++ stringifyEntries entries ++ "\x7d"

/-- Elementwise rendering inside `str()` of a list (strings are quoted). -/
def stringifyElems : List Value → String
  | [] => ""
  | [Value.str s] => quoteStr s
  | [v] => stringifyValue v
  | Value.str s :: rest => quoteStr s ++ ", " ++ stringifyElems rest
  | v :: rest => stringifyValue v ++ ", " ++ stringifyElems rest

end

/-- Cell-level coercion of the Schema Caster, by declared dtype string.
Mirrors the four branches of the cast loop in `transform_data`: `int64` is
`to_numeric(errors="coerce").fillna(0).astype("int64")`, `float64` likewise
with fallback `0.0`, `datetime64[ns]` is `to_datetime(errors="coerce")`
(NaT on failure), `string` is `.where(notna, None).astype("string")`; any
other dtype string leaves the cell unchanged.  Total: no branch can raise. -/
def castCell (dtype : String) (v : Value) : Value :=
  if dtype == "int64" then Value.int (ratTrunc ((toNumeric? v).getD 0))
  else if dtype == "float64" then Value.float ((toNumeric? v).getD 0)
  else if dtype == "datetime64[ns]" then
    match toDatetime? v with
    | some ns => Value.timestamp ns
    | none => Value.na
  else if dtype == "string" then
    match v with
    | Value.na => Value.na
    | w => Value.str (stringifyValue w)
  else v

/-- Whether the DataFrame has a column of this name (`col in df.columns`). -/
def DataFrame.hasCol (df : DataFrame) (name : String) : Bool :=
  df.cols.any (fun c => c.name == name)

/-- Column assignment `df[name] = ...`: replaces the cells (mapped by `f`)
and the dtype of every column of that name. -/
def DataFrame.setCol (df : DataFrame) (name : String) (dt : Dtype) (f : Value → Value) : DataFrame :=
  DataFrame.mk (df.cols.map (fun c =>
    if c.name == name then Col.mk c.name dt (c.cells.map f) else c))

/-- One iteration of the cast loop: a declared column present in the batch
is cast cell-by-cell to its declared dtype; a declared column absent from
the batch is skipped; an unrecognised dtype string leaves it unchanged. -/
def castColumn (df : DataFrame) (column dtype : String) : DataFrame :=
  if df.hasCol column then
    if dtype == "int64" then df.setCol column Dtype.int64 (castCell dtype)
    else if dtype == "float64" then df.setCol column Dtype.float64 (castCell dtype)
    else if dtype == "datetime64[ns]" then df.setCol column Dtype.datetime64 (castCell dtype)
    else if dtype == "string" then df.setCol column Dtype.string (castCell dtype)
    else df
  else df

/-- The `transform_config` argument of `transform_data`: the three
column-to-dtype sections used by the cast loop. -/
structure TransformConfig where
  group_by : List (String × String)
  meta_dimensions : List (String × String)
  metrics : List (String × String)

/-- Python dict insertion (`{**a, **b}` semantics): an existing key is
overridden in place, a new key is appended. -/
def dictInsert (d : List (String × String)) (kv : String × String) : List (String × String) :=
  if d.any (fun p => p.1 == kv.1) then
    d.map (fun p => if p.1 == kv.1 then (p.1, kv.2) else p)
  else d ++ [kv]

/-- Python `{**a, **b}`. -/
def dictMerge (a b : List (String × String)) : List (String × String) :=
  b.foldl dictInsert a

/-- `columns_to_cast = {**group_by, **meta_dimensions, **metrics}`. -/
def columnsToCast (cfg : TransformConfig) : List (String × String) :=
  dictMerge (dictMerge cfg.group_by cfg.meta_dimensions) cfg.metrics

/-- The cast loop of `transform_data` over all declared columns. -/
def castColumns (cfg : TransformConfig) (df : DataFrame) : DataFrame :=
  (columnsToCast cfg).foldl (fun d p => castColumn d p.1 p.2) df

/-- Key lookup in a parsed tag dict (python dict indexing). -/
def lookupTag (k : String) : List (String × String) → Option String
  | [] => none
  | (a, b) :: rest => if a == k then some b else lookupTag k rest

/-- Union of the keys of a list of parsed tag dicts, in first-appearance
order: the column set produced by `df[col].apply(pd.Series)`. -/
def unionKeys (ds : List (List (String × String))) : List String :=
  ds.foldl (fun acc d => d.foldl (fun a p => if a.contains p.1 then a else a ++ [p.1]) acc) []

/-- The nested-column block of `transform_data` for one configured column:
if the column is present, replace it by the parsed dicts, expand the union
of dict keys into new columns (`apply(pd.Series)` then `where(notna, None)`,
missing keys become None), concatenate them on the right
(`pd.concat(axis=1)`) and drop the original column; otherwise only a
warning is logged and the frame is unchanged. -/
def processNestedColumn (df : DataFrame) (colName : String) : DataFrame :=
  match df.cols.find? (fun c => c.name == colName) with
  | none => df
  | some c0 =>
    let dicts := c0.cells.map (fun v => process_nested_field v colName)
    let df1 := df.setCol colName Dtype.object (fun v => Value.dict (process_nested_field v colName))
    let auxCols := (unionKeys dicts).map (fun k =>
      Col.mk k Dtype.object (dicts.map (fun d =>
        match lookupTag k d with
        | some s => Value.str s
        | none => Value.na)))
    DataFrame.mk ((df1.cols ++ auxCols).filter (fun c => c.name != colName))

/-- The `.dt.strftime` reformatting applied to one designated column when
present: it succeeds only on a datetime64 column (pandas' `.dt` accessor
raises on any other dtype); NaT cells render as missing.  `full` selects
`%Y-%m-%dT%H:%M:%S` over `%Y-%m-%d`. -/
def applyDtFormat (df : DataFrame) (name : String) (full : Bool) : Except String DataFrame :=
  match df.cols.find? (fun c => c.name == name) with
  | none => Except.ok df
  | some c0 =>
    if c0.dtype == Dtype.datetime64 then
      Except.ok (df.setCol name Dtype.object (fun v =>
        match v with
        | Value.timestamp ns => Value.str (if full then formatTSns ns else formatYMDns ns)
        | _ => Value.na))
    else Except.error "Can only use .dt accessor with datetimelike values"

/-- The timestamp columns reformatted by `transform_data`. -/
def timestampColumnNames : List String :=
  ["lfm.content.posted_on_datetime", "lfm.fact.window_start_date", "lfm.fact.window_end_date"]

/-- The loop over `timestamp_columns` in `transform_data`. -/
def formatTimestampColsAux : List String → DataFrame → Except String DataFrame
  | [], df => Except.ok df
  | n :: ns, df =>
    match applyDtFormat df n true with
    | Except.error e => Except.error e
    | Except.ok df2 => formatTimestampColsAux ns df2

/-- Number of rows of the frame (length of its first column). -/
def DataFrame.nrows (df : DataFrame) : Nat :=
  match df.cols with
  | [] => 0
  | c :: _ => c.cells.length

/-- `to_dict(orient='records')`: one flat mapping per row, in row order,
listing the columns in frame order. -/
def toRecords (df : DataFrame) : List Record :=
  (List.range df.nrows).map (fun i =>
    df.cols.filterMap (fun c => (c.cells.get? i).map (fun v => (c.name, v))))

/-- The body of `transform_data`'s `try` block, operating on the copy:
cast loop, nested-column expansion, date and timestamp reformatting, name
sanitization, serialization to records.  An error is any exception raised
inside the block. -/
def transformBody (df0 : DataFrame) (cfg : TransformConfig) : Except String (List Record) :=
  match applyDtFormat (processNestedColumn (castColumns cfg df0) "lfm.content.tags")
      "lfm.fact.date_str" false with
  | Except.error e => Except.error e
  | Except.ok df3 =>
    match formatTimestampColsAux timestampColumnNames df3 with
    | Except.error e => Except.error e
    | Except.ok df4 => Except.ok (toRecords (sanitize_column_names df4))

/-- `raw_df.copy()`: a structurally fresh frame with the same contents. -/
def DataFrame.copy (df : DataFrame) : DataFrame :=
  DataFrame.mk (df.cols.map (fun c => Col.mk c.name c.dtype c.cells))

/-- Embedding of `transform_data` from `data_transform.py`: runs the
pipeline on a copy of the input; any exception is caught at the top level
and the original input batch is returned instead (`Sum.inl`). -/
def transform_data (raw_df : DataFrame) (transform_config : TransformConfig) :
    DataFrame ⊕ List Record :=
  match transformBody raw_df.copy transform_config with
  | Except.ok recs => Sum.inr recs
  | Except.error _ => Sum.inl raw_df

/-- Values of the extraction config dict: strings or lists of strings. -/
inductive CVal where
  | s (v : String)
  | l (v : List String)

/-- Errors surfaced by `extract_data_from_api`. -/
inductive ExtractError where
  | valueError (msg : String)
  | runtimeError (msg : String)

/-- One query filter (`field`, `operator`, `values`); a `none` value models
python `None` inserted by a failed date conversion. -/
structure ApiFilter where
  field : String
  operator : String
  values : List (Option String)

/-- The analytic query assembled by `extract_data_from_api`. -/
structure Query where
  dataset_id : CVal
  metrics : CVal
  group_by : CVal
  meta_dimensions : CVal
  filters : List ApiFilter
  start_date : String
  end_date : String

/-- Drop an exact character-list prefix, or fail. -/
def dropPrefixExact : List Char → List Char → Option (List Char)
  | [], rest => some rest
  | _ :: _, [] => none
  | p :: ps, c :: cs => if c = p then dropPrefixExact ps cs else none

/-- Opening brace character. -/
def braceL : Char := Char.ofNat 123

/-- Closing brace character. -/
def braceR : Char := Char.ofNat 125

/-- Attempt to match the regex `\{\{nDaysAgo\s+(\d+)\}\}` at the head of
the character list, returning the captured number. -/
def matchNDaysAgo (cs : List Char) : Option Nat :=
  match dropPrefixExact (braceL :: braceL :: String.data "nDaysAgo") cs with
  | none => none
  | some rest =>
    match rest with
    | [] => none
    | c :: rest2 =>
      if isPySpace c then
        let rest3 := rest2.dropWhile isPySpace
        let ds := rest3.takeWhile Char.isDigit
        let rest4 := rest3.dropWhile Char.isDigit
        if ds = [] then none
        else
          match dropPrefixExact [braceR, braceR] rest4 with
          | some _ => some (digitsToNat ds)
          | none => none
      else none

/-- First match of the relative-date pattern anywhere in the string
(`re.findall(...)[0]`). -/
def findNDaysAgo : List Char → Option Nat
  | [] => none
  | c :: cs =>
    match matchNDaysAgo (c :: cs) with
    | some n => some n
    | none => findNDaysAgo cs

/-- Embedding of `format_date` from `data_extract.py`.  `today` is the
current date as days since the epoch.  On a successful pattern match the
result is `today - N` rendered as `YYYY-MM-DD`.  On any failure (no match:
`[0]` raises IndexError) the bare `except` block logs and the function
falls through, returning python `None` — it does NOT re-raise. -/
def format_date (today : Int) (lf_date : String) : Option String :=
  match findNDaysAgo lf_date.data with
  | some n => some (formatCivil (civilFromDays (today - (n : Int))))
  | none => none

/-- Substring test (python `in` on strings). -/
def isSubstr (needle : List Char) : List Char → Bool
  | [] => needle.isEmpty
  | c :: cs => (dropPrefixExact needle (c :: cs)).isSome || isSubstr needle cs

/-- Python `"content" in config["dataset_id"]`: substring test on a string
value, membership test on a list value. -/
def isContentDs : CVal → Bool
  | CVal.s ds => isSubstr ("content".data) ds.data
  | CVal.l xs => xs.contains "content"

/-- Brand-filter values from `config["brands"]`. -/
def brandValues : CVal → List (Option String)
  | CVal.s x => [some x]
  | CVal.l xs => xs.map some

/-- The required ExportConfig fields checked by `extract_data_from_api`. -/
def requiredFields : List String := ["dataset_id", "metrics", "group_by", "meta_dimensions", "brands"]

/-- Comma-space join of the missing-field list for the error message. -/
def joinComma : List String → String
  | [] => ""
  | [x] => x
  | x :: rest => x ++ ", " ++ joinComma rest

/-- Lookup in the extraction config dict. -/
def cfgLookup (config : List (String × CVal)) (key : String) : Option CVal :=
  (config.find? (fun p => p.1 == key)).map (fun p => p.2)

/-- Embedding of `extract_data_from_api` from `data_extract.py`.  The
network is abstracted by the `api` oracle (the paged analytic query plus
concatenation); the second component of the result counts how many times
the API was driven (0 or 1 here), so "zero network calls" is expressible.
Missing required fields raise ValueError before the query is built; for a
"content" dataset a secondary date filter built from `format_date` is
appended and the start date is fixed to 365 days of history; an API failure
is wrapped in RuntimeError. -/
def extract_data_from_api (api : Query → String → Except String DataFrame)
    (client_context : String) (config : List (String × CVal))
    (start_date end_date : String) (today : Int) :
    Except ExtractError DataFrame × Nat :=
  let missing := requiredFields.filter (fun f => (cfgLookup config f).isNone)
  if missing.isEmpty then
    match cfgLookup config "dataset_id", cfgLookup config "metrics",
          cfgLookup config "group_by", cfgLookup config "meta_dimensions",
          cfgLookup config "brands" with
    | some ds, some ms, some gb, some md, some br =>
      let baseFilters := [ApiFilter.mk "lfm.brand_view.id" "IN" (brandValues br)]
      let isC := isContentDs ds
      let filters := if isC then
          baseFilters ++ [ApiFilter.mk "lfm.fact.date_str" "BETWEEN"
            [format_date today start_date, format_date today end_date]]
        else baseFilters
      let sd := if isC then "\x7b\x7bnDaysAgo 365\x7d\x7d" else start_date
      let query := Query.mk ds ms gb md filters sd end_date
      match api query client_context with
      | Except.ok data => (Except.ok data, 1)
      | Except.error e => (Except.error (ExtractError.runtimeError ("API call failed: " ++ e)), 1)
    | _, _, _, _, _ =>
      (Except.error (ExtractError.valueError "Missing required configuration fields"), 0)
  else
    (Except.error (ExtractError.valueError
      ("Missing required configuration fields: " ++ joinComma missing)), 0)

/-- Errors surfaced by `load_data_to_bq`. -/
inductive LoadError where
  | valueError (msg : String)
  | runtimeError (msg : String)

/-- The BigQuery load job assembled by `load_data_to_bq`. -/
structure LoadJob where
  table_id : String
  write_disposition : String
  autodetect : Bool
  data : List Record

/-- Embedding of `load_data_to_bq` from `data_load.py`.  The warehouse is
abstracted by the `bq` oracle (job submission plus completion, returning
the output row count); the second result component counts submitted jobs.
Empty input raises ValueError before the job is constructed; a warehouse
failure is wrapped in RuntimeError. -/
def load_data_to_bq (bq : LoadJob → Except String Nat) (project : String)
    (transformed_data : List Record) (dataset_id table_name write_disposition : String) :
    Except LoadError Nat × Nat :=
  if transformed_data.isEmpty then
    (Except.error (LoadError.valueError "No data provided to load into BigQuery."), 0)
  else
    let table_id := project ++ "." ++ dataset_id ++ "." ++ "000_warner_dl_lf_" ++ table_name
    match bq (LoadJob.mk table_id write_disposition true transformed_data) with
    | Except.ok rows => (Except.ok rows, 1)
    | Except.error e => (Except.error (LoadError.runtimeError ("Google API error: " ++ e)), 1)

/-- All columns of the frame have exactly `n` cells (the pandas invariant
that a DataFrame is rectangular). -/
def colsLen (df : DataFrame) (n : Nat) : Prop := ∀ c ∈ df.cols, c.cells.length = n

/-- The empty transform config (no declared columns). -/
def cfgEmpty : TransformConfig := TransformConfig.mk [] [] []

/-- A one-row batch whose only column, `lfm.fact.date_str`, is a raw string
column, with no config declaration casting it to datetime. -/
def c1Batch : DataFrame :=
  DataFrame.mk [Col.mk "lfm.fact.date_str" Dtype.object [Value.str "2024-01-15"]]

/-- A one-row batch with a single column that no config declares. -/
def c2Batch : DataFrame := DataFrame.mk [Col.mk "extra" Dtype.object [Value.str "v"]]

/-- The end-to-end test batch of the spec: one row with a tag list and a
date string. -/
def c3Batch : DataFrame := DataFrame.mk [
  Col.mk "lfm.content.tags" Dtype.object
    [Value.list [Value.str "views: 10", Value.str "views: 20", Value.str "likes:5"]],
  Col.mk "lfm.fact.date_str" Dtype.object [Value.str "2024-01-15"]]

/-- A config declaring only `lfm.content.tags` in `meta_dimensions` and no
numeric metrics, as in the spec's end-to-end test. -/
def c3CfgMinimal : TransformConfig :=
  TransformConfig.mk [] [("lfm.content.tags", "object")] []

/-- The end-to-end config additionally declaring `lfm.fact.date_str` as
`datetime64[ns]` so the date-reformat step applies to a datetime column. -/
def c3CfgAmended : TransformConfig :=
  TransformConfig.mk [("lfm.fact.date_str", "datetime64[ns]")] [("lfm.content.tags", "object")] []

/-- A two-row batch of which exactly one row carries the literal marker
value `"unauthorized"`. -/
def uBatch : DataFrame :=
  DataFrame.mk [Col.mk "c" Dtype.object [Value.str "ok", Value.str "unauthorized"]]

/-- A batch with one dotted column name, for the sanitizer. -/
def c9Batch : DataFrame := DataFrame.mk [Col.mk "a.b" Dtype.object []]

/-- An extraction config missing the required `brands` field. -/
def c7Config : List (String × CVal) :=
  [("dataset_id", CVal.s "x"), ("metrics", CVal.l []), ("group_by", CVal.l []),
   ("meta_dimensions", CVal.l [])]

/-- An API oracle that records nothing and returns an empty batch. -/
def okApi : Query → String → Except String DataFrame := fun _ _ => Except.ok (DataFrame.mk [])

/-- A fixed current date (2026-10-12) as days since the epoch. -/
def c8Today : Int := daysFromCivil 2026 10 12

/-- A complete extraction config whose dataset is a "content" dataset, so
the secondary relative-date filter is applied. -/
def c8ContentConfig : List (String × CVal) :=
  [("dataset_id", CVal.s "content_dataset"), ("metrics", CVal.l ["m"]),
   ("group_by", CVal.l ["g"]), ("meta_dimensions", CVal.l []), ("brands", CVal.l ["1"])]

theorem copy_eq (df : DataFrame) : df.copy = df := by
  cases df with
  | mk cols =>
    simp only [DataFrame.copy, DataFrame.mk.injEq]
    induction cols with
    | nil => rfl
    | cons c cs ih => rw [List.map_cons, ih]

/-- C1: if any exception occurs during the transform steps then
`transform_data` returns the original input batch rather than raising; and
the transform works on a copy of the caller's batch, so in every call the
caller's input batch is left unmodified (the embedding is pure, and the
second conjunct states the result depends only on the copy it makes). -/
theorem transform_data_catch_returns_input (raw_df : DataFrame) (cfg : TransformConfig) :
    ((∃ e, transformBody raw_df.copy cfg = Except.error e) →
      transform_data raw_df cfg = Sum.inl raw_df)
    ∧ transform_data raw_df cfg = transform_data raw_df.copy cfg := by
  constructor
  · rintro ⟨e, he⟩
    simp [transform_data, he]
  · rw [copy_eq]

/-- Witness for C1: on a concrete batch whose date column was never cast to
datetime, the body raises inside the `.dt` step and the original batch
comes back. -/
theorem transform_data_catch_returns_input_witness :
    transform_data c1Batch cfgEmpty = Sum.inl c1Batch :=
  (transform_data_catch_returns_input c1Batch cfgEmpty).1
    ⟨"Can only use .dt accessor with datetimelike values", rfl⟩

theorem setCol_names (df : DataFrame) (name : String) (dt : Dtype) (f : Value → Value) :
    (df.setCol name dt f).cols.map Col.name = df.cols.map Col.name := by
  simp only [DataFrame.setCol, List.map_map]
  apply List.map_congr_left
  intro c _
  by_cases h : c.name == name <;> simp [Function.comp, h]

theorem castColumn_names (df : DataFrame) (column dtype : String) :
    (castColumn df column dtype).cols.map Col.name = df.cols.map Col.name := by
  unfold castColumn
  repeat' split
  any_goals rfl
  all_goals exact setCol_names _ _ _ _

theorem castColumns_names (cfg : TransformConfig) (df : DataFrame) :
    (castColumns cfg df).cols.map Col.name = df.cols.map Col.name := by
  unfold castColumns
  generalize columnsToCast cfg = l
  induction l generalizing df with
  | nil => rfl
  | cons p rest ih =>
    rw [List.foldl_cons]
    exact (ih (castColumn df p.1 p.2)).trans (castColumn_names df p.1 p.2)

/-- C2 counterexample: the pruning step is absent from the code (commented
out), so a successful transform retains a column that no config section
declares — refuting "every batch column not declared in that union is
dropped". -/
theorem transform_data_retains_undeclared_column :
    transform_data c2Batch cfgEmpty = Sum.inr [[("extra", Value.str "v")]] := rfl

/-- C2 amended: no pruning occurs — the cast stage leaves the column set of
the batch unchanged whatever the config declares (undeclared columns are
retained), and a declared column absent from the batch is tolerated without
error (that cast-loop iteration is a no-op). -/
theorem cast_stage_no_pruning :
    (∀ (cfg : TransformConfig) (df : DataFrame),
        (castColumns cfg df).cols.map Col.name = df.cols.map Col.name)
    ∧ ∀ (df : DataFrame) (column dtype : String),
        df.hasCol column = false → castColumn df column dtype = df := by
  constructor
  · exact castColumns_names
  · intro df column dtype h
    simp [castColumn, h]

/-- Witness for C2's amended statement at concrete inputs. -/
theorem cast_stage_no_pruning_witness :
    castColumn c2Batch "absent" "int64" = c2Batch
    ∧ (castColumns c3CfgMinimal c2Batch).cols.map Col.name = c2Batch.cols.map Col.name :=
  ⟨cast_stage_no_pruning.2 c2Batch "absent" "int64" rfl,
   cast_stage_no_pruning.1 c3CfgMinimal c2Batch⟩

/-- C3 counterexample: with the config exactly as the claim states it (only
`lfm.content.tags` declared, in `meta_dimensions`, and no numeric metrics),
`lfm.fact.date_str` is never cast to datetime, the `.dt.strftime` step
raises, and `transform_data` degrades to returning the raw batch — not the
claimed record list. -/
theorem endToEnd_minimal_config_degrades :
    transform_data c3Batch c3CfgMinimal = Sum.inl c3Batch := rfl

/-- C3 amended: with `lfm.fact.date_str` additionally declared as
`datetime64[ns]`, the transform returns the record list of the claim: one
row with `lfm&content&tags&views = "10//20"`, `lfm&content&tags&likes =
"5"` and `lfm&fact&date_str = "2024-01-15"`. -/
theorem endToEnd_with_datetime_declared :
    transform_data c3Batch c3CfgAmended = Sum.inr
      [[("lfm&fact&date_str", Value.str "2024-01-15"),
        ("lfm&content&tags&views", Value.str "10//20"),
        ("lfm&content&tags&likes", Value.str "5")]] := rfl

theorem tagUpd_ne (k v a b : String) (hab : (a == k) = false) :
    tagUpd k v (a, b) = (a, b) := by
  simp [tagUpd, hab]

theorem tagUpd_self (k v b : String) : tagUpd k v (k, b) = (k, b ++ "//" ++ v) := by
  simp [tagUpd]

theorem lookupTag_some_any (d : List (String × String)) (k w : String)
    (h : lookupTag k d = some w) : d.any (fun p => p.1 == k) = true := by
  induction d with
  | nil => exact absurd h (by simp [lookupTag])
  | cons p rest ih =>
    obtain ⟨a, b⟩ := p
    rw [lookupTag] at h
    cases hab : a == k with
    | true => simp [hab]
    | false =>
      rw [hab] at h
      simp only [if_false, Bool.false_eq_true] at h
      simp [hab, ih h]

theorem lookupTag_none_any (d : List (String × String)) (k : String)
    (h : lookupTag k d = none) : d.any (fun p => p.1 == k) = false := by
  induction d with
  | nil => rfl
  | cons p rest ih =>
    obtain ⟨a, b⟩ := p
    rw [lookupTag] at h
    cases hab : a == k with
    | true => rw [hab] at h; simp at h
    | false =>
      rw [hab] at h
      simp only [if_false, Bool.false_eq_true] at h
      simp [hab, ih h]

/-- C4: the Field Parser is pure and order-sensitive.  Non-list or empty
input yields the empty mapping (never null); a repeated key gets its value
concatenated in place, in encounter order, joined by `//`; a new key is
appended; and the specified test vector evaluates to exactly the specified
mapping (first-colon splitting, trimmed space-to-underscore keys, the
`.untitled` fallback). -/
theorem process_nested_field_spec :
    (∀ (v : Value) (f : String), v.isList = false → process_nested_field v f = [])
    ∧ (∀ f : String, process_nested_field (Value.list []) f = [])
    ∧ (∀ (d : List (String × String)) (k w v : String),
        lookupTag k d = some w →
        lookupTag k (tagInsert d k v) = some (w ++ "//" ++ v))
    ∧ (∀ (d : List (String × String)) (k v : String),
        lookupTag k d = none → tagInsert d k v = d ++ [(k, v)])
    ∧ process_nested_field
        (Value.list [Value.str "a: 1", Value.str "a: 2", Value.str "b:3", Value.str "no-colon"]) "x"
        = [("x.a", "1//2"), ("x.b", "3"), ("x.untitled", "no-colon")] := by
  refine ⟨?_, fun f => rfl, ?_, ?_, rfl⟩
  · intro v f h
    cases v with
    | list items => simp [Value.isList] at h
    | na => rfl
    | int n => rfl
    | float q => rfl
    | str s => rfl
    | timestamp ns => rfl
    | dict entries => rfl
  · intro d k w v h
    unfold tagInsert
    rw [lookupTag_some_any d k w h, if_pos rfl]
    induction d with
    | nil => exact absurd h (by simp [lookupTag])
    | cons p rest ih =>
      obtain ⟨a, b⟩ := p
      rw [lookupTag] at h
      rw [List.map_cons]
      by_cases hk : a = k
      · subst hk
        simp at h
        rw [tagUpd_self, lookupTag]
        simp [h]
      · have hab : (a == k) = false := by simp [hk]
        rw [hab] at h
        simp only [Bool.false_eq_true, if_false] at h
        rw [tagUpd_ne k v a b hab, lookupTag, hab]
        simp only [Bool.false_eq_true, if_false]
        exact ih h
  · intro d k v h
    unfold tagInsert
    rw [lookupTag_none_any d k h]
    simp

/-- Witness for C4's conditional conjuncts at concrete inputs. -/
theorem process_nested_field_spec_witness :
    process_nested_field (Value.int 3) "x" = []
    ∧ lookupTag "k" (tagInsert [("k", "1")] "k" "2") = some "1//2"
    ∧ tagInsert ([] : List (String × String)) "k" "9" = [("k", "9")] :=
  ⟨process_nested_field_spec.1 (Value.int 3) "x" rfl,
   process_nested_field_spec.2.2.1 [("k", "1")] "k" "1" "2" rfl,
   process_nested_field_spec.2.2.2.1 [] "k" "9" rfl⟩

/-- C5: the Schema Caster's cell coercions never raise (every branch of
`castCell` is a total function) and fall back deterministically: a
non-numeric or missing cell of an integer column becomes exactly `0`, of a
float column exactly `0.0`; an unparseable cell of a timestamp column
becomes the null marker NaT (never a substitute date); a null cell of a
string column stays null instead of becoming the text "None". -/
theorem cast_cell_fallbacks :
    (∀ v : Value, toNumeric? v = none → castCell "int64" v = Value.int 0)
    ∧ (∀ v : Value, toNumeric? v = none → castCell "float64" v = Value.float 0)
    ∧ (∀ v : Value, toDatetime? v = none → castCell "datetime64[ns]" v = Value.na)
    ∧ castCell "string" Value.na = Value.na := by
  refine ⟨fun v h => ?_, fun v h => ?_, fun v h => ?_, rfl⟩
  · simp [castCell, h, ratTrunc]
  · simp [castCell, h]
  · simp [castCell, h]

/-- Witness for C5 at a concrete non-numeric, non-date string cell. -/
theorem cast_cell_fallbacks_witness :
    castCell "int64" (Value.str "hello") = Value.int 0
    ∧ castCell "float64" (Value.str "hello") = Value.float 0
    ∧ castCell "datetime64[ns]" (Value.str "hello") = Value.na :=
  ⟨cast_cell_fallbacks.1 (Value.str "hello") rfl,
   cast_cell_fallbacks.2.1 (Value.str "hello") rfl,
   cast_cell_fallbacks.2.2.1 (Value.str "hello") rfl⟩

/-- C7: a config missing any of the five required fields makes
`extract_data_from_api` fail with ValueError immediately, before any API
interaction: the call counter stays at zero. -/
theorem extract_missing_fields_fails_fast
    (api : Query → String → Except String DataFrame) (cc : String)
    (config : List (String × CVal)) (s e : String) (today : Int)
    (h : ∃ f ∈ requiredFields, cfgLookup config f = none) :
    (extract_data_from_api api cc config s e today).2 = 0
    ∧ ∃ m, (extract_data_from_api api cc config s e today).1
        = Except.error (ExtractError.valueError m) := by
  obtain ⟨f, hf, hnone⟩ := h
  have hmem : f ∈ requiredFields.filter (fun f => (cfgLookup config f).isNone) :=
    List.mem_filter.mpr ⟨hf, by simp [hnone]⟩
  have h1 : requiredFields.filter (fun f => (cfgLookup config f).isNone) ≠ [] :=
    List.ne_nil_of_mem hmem
  have hne : (requiredFields.filter (fun f => (cfgLookup config f).isNone)).isEmpty = false := by
    simp [List.isEmpty_iff, h1]
  constructor
  · simp [extract_data_from_api, hne]
  · refine ⟨"Missing required configuration fields: "
      ++ joinComma (requiredFields.filter (fun f => (cfgLookup config f).isNone)), ?_⟩
    simp [extract_data_from_api, hne]

/-- Witness for C7: a concrete config missing `brands` fails before the
API oracle is ever invoked. -/
theorem extract_missing_fields_fails_fast_witness :
    (extract_data_from_api okApi "ctx" c7Config "2024-01-01" "2024-02-01" 0).2 = 0
    ∧ ∃ m, (extract_data_from_api okApi "ctx" c7Config "2024-01-01" "2024-02-01" 0).1
        = Except.error (ExtractError.valueError m) :=
  extract_missing_fields_fails_fast okApi "ctx" c7Config "2024-01-01" "2024-02-01" 0
    ⟨"brands", by decide, rfl⟩

/-- C8 (code bug): the relative-date conversion itself is correct — the
template for 7 days before 2026-10-12 yields "2026-10-05" — but a parse
failure does NOT abort the config's extraction: `format_date`'s bare
`except` swallows the IndexError and returns python `None` (contradicting
its declared `-> str` contract and the `RuntimeError` documented by
`extract_data_from_api`), after which the extraction proceeds to the API
call with a None date-filter value and SUCCEEDS. -/
theorem format_date_parse_failure_swallowed :
    format_date c8Today "\x7b\x7bnDaysAgo 7\x7d\x7d" = some "2026-10-05"
    ∧ format_date c8Today "2024-01-15" = none
    ∧ (extract_data_from_api okApi "ctx" c8ContentConfig "2024-01-15" "2024-12-31" c8Today).2 = 1
    ∧ (extract_data_from_api okApi "ctx" c8ContentConfig "2024-01-15" "2024-12-31" c8Today).1
        = Except.ok (DataFrame.mk []) :=
  ⟨rfl, rfl, rfl, rfl⟩

theorem sanChar_idem (c : Char) : sanChar (sanChar c) = sanChar c := by
  by_cases h : c = '.'
  · subst h; decide
  · simp [sanChar, h]

theorem sanChar_ne_dot (c : Char) : sanChar c ≠ '.' := by
  by_cases h : c = '.'
  · subst h; decide
  · unfold sanChar
    rw [if_neg h]
    exact h

theorem sanitizeName_noDot (s : String) : ('.' : Char) ∉ (sanitizeName s).data := by
  intro hmem
  unfold sanitizeName at hmem
  rw [show (String.mk (s.data.map sanChar)).data = s.data.map sanChar from rfl] at hmem
  obtain ⟨c, _, hc⟩ := List.mem_map.mp hmem
  exact sanChar_ne_dot c hc

theorem sanitizeName_idem (s : String) : sanitizeName (sanitizeName s) = sanitizeName s := by
  unfold sanitizeName
  rw [show (String.mk (s.data.map sanChar)).data = s.data.map sanChar from rfl,
      List.map_map, show sanChar ∘ sanChar = sanChar from funext sanChar_idem]

/-- C9: the Column Sanitizer replaces every dot: no output column name
contains `'.'`, and the sanitizer is idempotent on whole frames. -/
theorem sanitize_idempotent_no_dots :
    (∀ (df : DataFrame) (c : Col),
        c ∈ (sanitize_column_names df).cols → ('.' : Char) ∉ c.name.data)
    ∧ ∀ df : DataFrame, sanitize_column_names (sanitize_column_names df) = sanitize_column_names df := by
  constructor
  · intro df c hc
    unfold sanitize_column_names at hc
    obtain ⟨c0, _, rfl⟩ := List.mem_map.mp hc
    exact sanitizeName_noDot c0.name
  · intro df
    cases df with
    | mk cols =>
      simp only [sanitize_column_names, List.map_map]
      congr 1
      apply List.map_congr_left
      intro c _
      simp [Function.comp, sanitizeName_idem]

/-- Witness for C9 at a concrete one-column frame with a dotted name. -/
theorem sanitize_idempotent_no_dots_witness :
    ('.' : Char) ∉ (Col.mk "a&b" Dtype.object ([] : List Value)).name.data
    ∧ sanitize_column_names (sanitize_column_names c9Batch) = sanitize_column_names c9Batch :=
  ⟨sanitize_idempotent_no_dots.1 c9Batch (Col.mk "a&b" Dtype.object [])
      (by rw [show (sanitize_column_names c9Batch).cols
                = [Col.mk "a&b" Dtype.object []] from rfl]
          exact List.mem_singleton.mpr rfl),
   sanitize_idempotent_no_dots.2 c9Batch⟩

/-- C10: calling the Load Adapter with an empty record list raises
ValueError before the load job is constructed or the warehouse contacted:
for every warehouse oracle and destination the result is the ValueError
and the job counter stays at zero. -/
theorem load_empty_raises_before_job
    (bq : LoadJob → Except String Nat) (project dataset_id table_name wd : String) :
    load_data_to_bq bq project [] dataset_id table_name wd
      = (Except.error (LoadError.valueError "No data provided to load into BigQuery."), 0) := rfl

theorem setCol_len (df : DataFrame) (name : String) (dt : Dtype) (f : Value → Value) (n : Nat)
    (h : colsLen df n) : colsLen (df.setCol name dt f) n := by
  intro c hc
  simp only [DataFrame.setCol] at hc
  obtain ⟨c0, hc0, rfl⟩ := List.mem_map.mp hc
  by_cases hn : c0.name == name
  · simp [hn, h c0 hc0]
  · simp [hn, h c0 hc0]

theorem castColumn_len (df : DataFrame) (column dtype : String) (n : Nat)
    (h : colsLen df n) : colsLen (castColumn df column dtype) n := by
  unfold castColumn
  repeat' split
  any_goals exact h
  all_goals exact setCol_len _ _ _ _ _ h

theorem castColumns_len (cfg : TransformConfig) (df : DataFrame) (n : Nat)
    (h : colsLen df n) : colsLen (castColumns cfg df) n := by
  unfold castColumns
  generalize columnsToCast cfg = l
  induction l generalizing df with
  | nil => exact h
  | cons p rest ih =>
    rw [List.foldl_cons]
    exact ih (castColumn df p.1 p.2) (castColumn_len df p.1 p.2 n h)

theorem processNestedColumn_len (df : DataFrame) (cn : String) (n : Nat)
    (h : colsLen df n) : colsLen (processNestedColumn df cn) n := by
  unfold processNestedColumn
  cases hf : df.cols.find? (fun c => c.name == cn) with
  | none => exact h
  | some c0 =>
    intro c hc
    simp only at hc
    have hc2 := (List.mem_filter.mp hc).1
    rcases List.mem_append.mp hc2 with hl | hr
    · exact setCol_len df cn Dtype.object _ n h c hl
    · obtain ⟨k, _, rfl⟩ := List.mem_map.mp hr
      have hc0 : c0 ∈ df.cols := List.mem_of_find?_eq_some hf
      simp [h c0 hc0]

theorem processNestedColumn_other (df : DataFrame) (cn : String)
    (hex : ∃ s ∈ df.cols.map Col.name, s ≠ cn) :
    ∃ s ∈ (processNestedColumn df cn).cols.map Col.name, s ≠ cn := by
  unfold processNestedColumn
  cases hf : df.cols.find? (fun c => c.name == cn) with
  | none => exact hex
  | some c0 =>
    obtain ⟨s, hs, hne⟩ := hex
    obtain ⟨c, hc, rfl⟩ := List.mem_map.mp hs
    have hcond : (c.name == cn) = false := by simp [hne]
    have hmem1 : c ∈ (df.setCol cn Dtype.object
        (fun v => Value.dict (process_nested_field v cn))).cols := by
      simp only [DataFrame.setCol]
      exact List.mem_map.mpr ⟨c, hc, by simp [hcond]⟩
    refine ⟨c.name, List.mem_map_of_mem Col.name ?_, hne⟩
    exact List.mem_filter.mpr ⟨List.mem_append_left _ hmem1, by simp [bne, hcond]⟩

theorem applyDtFormat_ok (df df2 : DataFrame) (name : String) (full : Bool)
    (h : applyDtFormat df name full = Except.ok df2) :
    df2 = df ∨ ∃ dt f, df2 = df.setCol name dt f := by
  unfold applyDtFormat at h
  split at h
  · injection h with h2
    exact Or.inl h2.symm
  · split at h
    · injection h with h2
      exact Or.inr ⟨_, _, h2.symm⟩
    · exact absurd h (by simp)

theorem applyDtFormat_ok_props (df df2 : DataFrame) (name : String) (full : Bool) (n : Nat)
    (h : applyDtFormat df name full = Except.ok df2) (hlen : colsLen df n) :
    df2.cols.map Col.name = df.cols.map Col.name ∧ colsLen df2 n := by
  rcases applyDtFormat_ok df df2 name full h with rfl | ⟨dt, f, rfl⟩
  · exact ⟨rfl, hlen⟩
  · exact ⟨setCol_names df name dt f, setCol_len df name dt f n hlen⟩

theorem formatTimestampColsAux_props (names : List String) (df df2 : DataFrame) (n : Nat)
    (h : formatTimestampColsAux names df = Except.ok df2) (hlen : colsLen df n) :
    df2.cols.map Col.name = df.cols.map Col.name ∧ colsLen df2 n := by
  induction names generalizing df with
  | nil =>
    rw [formatTimestampColsAux] at h
    injection h with h2
    subst h2
    exact ⟨rfl, hlen⟩
  | cons nm rest ih =>
    rw [formatTimestampColsAux] at h
    cases hdt : applyDtFormat df nm true with
    | error e => rw [hdt] at h; exact absurd h (by simp)
    | ok dfm =>
      rw [hdt] at h
      obtain ⟨em, lm⟩ := applyDtFormat_ok_props df dfm nm true n hdt hlen
      obtain ⟨e2, l2⟩ := ih dfm h lm
      exact ⟨e2.trans em, l2⟩

theorem sanitize_len (df : DataFrame) (n : Nat) (h : colsLen df n) :
    colsLen (sanitize_column_names df) n := by
  intro c hc
  simp only [sanitize_column_names] at hc
  obtain ⟨c0, hc0, rfl⟩ := List.mem_map.mp hc
  exact h c0 hc0

theorem toRecords_len (df : DataFrame) (n : Nat) (hne : df.cols ≠ []) (h : colsLen df n) :
    (toRecords df).length = n := by
  unfold toRecords
  rw [List.length_map, List.length_range]
  unfold DataFrame.nrows
  cases hdf : df.cols with
  | nil => exact absurd hdf hne
  | cons c rest =>
    show c.cells.length = n
    exact h c (by rw [hdf]; exact List.mem_cons_self c rest)

/-- C6 counterexample: the code contains no unauthorized-row filter at all
(and no switch to enable one): a two-row batch whose second row carries the
literal value "unauthorized" transforms to two records, not one — the
flagged row is retained in the output. -/
theorem unauthorized_row_not_dropped :
    transform_data uBatch cfgEmpty
      = Sum.inr [[("c", Value.str "ok")], [("c", Value.str "unauthorized")]] := rfl

/-- C6 amended: `transform_data` drops no rows whatsoever — there is no
unauthorized-row filter.  For every config and every rectangular batch with
at least one column other than the nested tags column, a successful
transform returns exactly one record per input row; in particular a batch
of N rows of which one contains "unauthorized" yields N (not N-1) records. -/
theorem transform_preserves_row_count (df : DataFrame) (cfg : TransformConfig)
    (recs : List Record)
    (hwf : colsLen df df.nrows)
    (hex : ∃ s ∈ df.cols.map Col.name, s ≠ "lfm.content.tags")
    (h : transform_data df cfg = Sum.inr recs) :
    recs.length = df.nrows := by
  unfold transform_data at h
  rw [copy_eq] at h
  cases hb : transformBody df cfg with
  | error e => rw [hb] at h; exact absurd h (by simp)
  | ok recs2 =>
    rw [hb] at h
    injection h with h5
    subst h5
    unfold transformBody at hb
    cases h3 : applyDtFormat (processNestedColumn (castColumns cfg df) "lfm.content.tags")
        "lfm.fact.date_str" false with
    | error e => rw [h3] at hb; exact absurd hb (by simp)
    | ok df3 =>
      rw [h3] at hb
      have hb2 : (match formatTimestampColsAux timestampColumnNames df3 with
          | Except.error e => Except.error e
          | Except.ok df4 => Except.ok (toRecords (sanitize_column_names df4)))
          = Except.ok recs2 := hb
      cases h4 : formatTimestampColsAux timestampColumnNames df3 with
      | error e => rw [h4] at hb2; exact absurd hb2 (by simp)
      | ok df4 =>
        rw [h4] at hb2
        injection hb2 with h6
        have l1 : colsLen (castColumns cfg df) df.nrows := castColumns_len cfg df df.nrows hwf
        have e1 := castColumns_names cfg df
        have ex1 : ∃ s ∈ (castColumns cfg df).cols.map Col.name, s ≠ "lfm.content.tags" := by
          rw [e1]; exact hex
        have l2 : colsLen (processNestedColumn (castColumns cfg df) "lfm.content.tags") df.nrows :=
          processNestedColumn_len _ _ _ l1
        have ex2 := processNestedColumn_other (castColumns cfg df) "lfm.content.tags" ex1
        obtain ⟨e3, l3⟩ := applyDtFormat_ok_props _ df3 "lfm.fact.date_str" false df.nrows h3 l2
        have ex3 : ∃ s ∈ df3.cols.map Col.name, s ≠ "lfm.content.tags" := by
          rw [e3]; exact ex2
        obtain ⟨e4, l4⟩ := formatTimestampColsAux_props timestampColumnNames df3 df4 df.nrows h4 l3
        have ex4 : ∃ s ∈ df4.cols.map Col.name, s ≠ "lfm.content.tags" := by
          rw [e4]; exact ex3
        have hne4 : df4.cols ≠ [] := by
          obtain ⟨s, hs, _⟩ := ex4
          intro hnil
          rw [hnil] at hs
          simp at hs
        have hneS : (sanitize_column_names df4).cols ≠ [] := by
          simp only [sanitize_column_names]
          intro hnil
          exact hne4 (List.map_eq_nil_iff.mp hnil)
        rw [← h6]
        exact toRecords_len _ df.nrows hneS (sanitize_len df4 df.nrows l4)

/-- Witness for C6's amended statement: the two-row batch with one
unauthorized row yields exactly two records. -/
theorem transform_preserves_row_count_witness :
    ([[("c", Value.str "ok")], [("c", Value.str "unauthorized")]] : List Record).length
      = uBatch.nrows :=
  transform_preserves_row_count uBatch cfgEmpty _
    (by
      intro c hc
      rw [show uBatch.cols
            = [Col.mk "c" Dtype.object [Value.str "ok", Value.str "unauthorized"]] from rfl] at hc
      rw [List.mem_singleton.mp hc]
      rfl)
    ⟨"c", by simp [uBatch], by decide⟩
    rfl

end SocialWarner





